import Mathlib

/-!
Shallow embedding of `pkg/auth/artifact_verifier.go`: the artifact
verification subsystem (NopVerifier, BuildManifestVerifier, BuildVerifier,
CompositeVerifier) of the p2 deployment agent.

Modelling choices, all taken from the Go source:

* A `url.URL` is modelled by its fields relevant to the verifier:
  scheme, host, path, rawQuery, fragment.  The Go code copies the whole
  struct (`*manifestSrc = *artifactLocation`) and then mutates only `Path`.
* The local artifact file (`*os.File`) is a seekable, readable byte stream:
  content plus a read cursor, with flags for whether reads and seeks succeed
  (a real file's `ReadAll` / `Seek` can fail).
* The fetch collaborator `uri.Fetcher.CopyLocal` is an opaque capability
  `URL → Option bytes`; `none` is a fetch (or subsequent read-back) failure.
  Each verifier also returns the ordered list of URLs it passed to the
  fetcher, so that "the fetch capability is never invoked" is observable.
* The cryptographic primitives (`sha256.Sum256`, `checkDetachedSignature`,
  `armor.Decode` + reading its body, `yaml.Unmarshal`, `LoadKeyring`) are
  external collaborators, modelled as opaque parameters collected in `Env`.
  `sha256` always yields 32 bytes (Go return type `[32]byte`); bytes are
  `Nat` reduced mod 256 where their byte-ness matters (`hexEncode`).
* Go errors are modelled by the inductive `VErr`, one constructor per
  distinct error return site category of the source.
-/

/-- The fields of Go's `url.URL` that the verifier reads or writes.
`*manifestSrc = *artifactLocation` is a struct copy, so every field other
than `Path` is carried over unchanged. -/
structure URL where
  scheme : String
  host : String
  path : String
  rawQuery : String
  fragment : String
deriving DecidableEq

/-- The local copy of the artifact (`*os.File`): a byte stream with a read
cursor.  `readOk` / `seekOk` say whether `ioutil.ReadAll` / `Seek` succeed
on this stream (a non-seekable or unreadable file). -/
structure LocalArtifactCopy where
  content : List Nat
  pos : Nat
  readOk : Bool
  seekOk : Bool
deriving DecidableEq

/-- `ioutil.ReadAll(localCopy)`: reads from the current cursor to the end,
leaving the cursor at the end of the stream. -/
def LocalArtifactCopy.readAll (s : LocalArtifactCopy) :
    Option (List Nat × LocalArtifactCopy) :=
  if s.readOk then some (s.content.drop s.pos, { s with pos := s.content.length })
  else none

/-- `localCopy.Seek(0, os.SEEK_SET)`: rewinds the cursor to offset 0. -/
def LocalArtifactCopy.seekStart (s : LocalArtifactCopy) :
    Option LocalArtifactCopy :=
  if s.seekOk then some { s with pos := 0 } else none

/-- The error categories of the Go source, one per distinct failure site. -/
inductive VErr where
  | unsupportedScheme
  | tempDirError
  | fetchFailure
  | armorBodyError
  | signatureInvalid
  | parseError
  | digestMismatch
  | readError
  | seekError
  | keyringLoadError
deriving DecidableEq

/-- The fetch collaborator `uri.Fetcher`: `CopyLocal(src, dst)` followed by
`ioutil.ReadFile(dst)`, combined as one capability returning the fetched
bytes, or `none` on failure. -/
def Fetcher : Type := URL → Option (List Nat)

/-- The external collaborators of the verifier, opaque to this core:
cryptography, YAML parsing, keyring loading, and the temp-dir resource.
`K` is the opaque keyring type (`openpgp.KeyRing`). -/
structure Env (K : Type) where
  /-- `sha256.Sum256`: 32 output bytes, guaranteed by its `[32]byte` type. -/
  sha256 : List Nat → List Nat
  sha256_len : ∀ bs, (sha256 bs).length = 32
  /-- `checkDetachedSignature keyring signedBytes signatureBytes`. -/
  checkSig : K → List Nat → List Nat → Bool
  /-- `armor.Decode` plus `ReadAll(block.Body)`: `none` when the bytes are
  not an armored envelope, `some none` when armored but the body cannot be
  read, `some (some body)` when the enclosed body is extracted. -/
  armorDecode : List Nat → Option (Option (List Nat))
  /-- `yaml.Unmarshal` into `struct { ArtifactDigest string }`: `none` on a
  parse error, otherwise the `artifact_sha` field (`""` when absent). -/
  parseManifest : List Nat → Option String
  /-- Whether `ioutil.TempDir` succeeds. -/
  tempDirOk : Bool
  /-- `LoadKeyring(path)`. -/
  loadKeyring : String → Option K

/-- `encoding/hex` lowercase digit table. -/
def hexDigit (n : Nat) : Char :=
  if n < 10 then Char.ofNat (48 + n) else Char.ofNat (87 + n)

/-- One byte rendered as two lowercase hex characters (`encoding/hex`);
the argument is a byte, hence reduced mod 256. -/
def hexEncodeByte (b : Nat) : List Char :=
  [hexDigit (b % 256 / 16), hexDigit (b % 16)]

/-- `hex.EncodeToString`. -/
def hexEncode (bs : List Nat) : String :=
  ⟨bs.flatMap hexEncodeByte⟩

/-- The scheme switch shared by both verifiers:
`case "file", "gs", "http", "https"`. -/
def recognizedScheme (s : String) : Bool :=
  s = "file" || s = "gs" || s = "http" || s = "https"

structure BuildManifestVerifier (K : Type) where
  keyring : K

structure BuildVerifier (K : Type) where
  keyring : K

structure CompositeVerifier (K : Type) where
  manVerifier : BuildManifestVerifier K
  buildVerifier : BuildVerifier K

/-- `NewBuildManifestVerifier`: loads the keyring; on failure no verifier
is created. -/
def NewBuildManifestVerifier {K : Type} (env : Env K) (keyringPath : String) :
    Except VErr (BuildManifestVerifier K) :=
  match env.loadKeyring keyringPath with
  | none => .error .keyringLoadError
  | some keyring => .ok { keyring := keyring }

/-- `NewBuildVerifier`: loads the keyring; on failure no verifier is
created. -/
def NewBuildVerifier {K : Type} (env : Env K) (keyringPath : String) :
    Except VErr (BuildVerifier K) :=
  match env.loadKeyring keyringPath with
  | none => .error .keyringLoadError
  | some keyring => .ok { keyring := keyring }

/-- `NewCompositeVerifier`: builds the manifest verifier, then the build
verifier, propagating the first construction error. -/
def NewCompositeVerifier {K : Type} (env : Env K) (keyringPath : String) :
    Except VErr (CompositeVerifier K) :=
  match NewBuildManifestVerifier env keyringPath with
  | .error e => .error e
  | .ok manV =>
    match NewBuildVerifier env keyringPath with
    | .error e => .error e
    | .ok buildV => .ok { manVerifier := manV, buildVerifier := buildV }

/-- `verifySigned`: permit an armored detached signature, then check the
detached signature against the keyring. -/
def verifySigned {K : Type} (env : Env K) (keyring : K)
    (signedBytes signatureBytes : List Nat) : Except VErr Unit :=
  match env.armorDecode signatureBytes with
  | some none => .error .armorBodyError
  | some (some body) =>
    if env.checkSig keyring signedBytes body then .ok () else .error .signatureInvalid
  | none =>
    if env.checkSig keyring signedBytes signatureBytes then .ok ()
    else .error .signatureInvalid

/-- `BuildManifestVerifier.checkMatchingDigest`: read the local artifact
fully, hash it, parse the manifest, compare digest strings for exact
equality.  Returns the outcome and the stream as the call leaves it. -/
def BuildManifestVerifier.checkMatchingDigest {K : Type} (_b : BuildManifestVerifier K)
    (env : Env K) (localCopy : LocalArtifactCopy) (manifestBytes : List Nat) :
    Except VErr Unit × LocalArtifactCopy :=
  match localCopy.readAll with
  | none => (.error .readError, localCopy)
  | some (realTarBytes, s) =>
    let realDigest := hexEncode (env.sha256 realTarBytes)
    match env.parseManifest manifestBytes with
    | none => (.error .parseError, s)
    | some artifactDigest =>
      if realDigest ≠ artifactDigest then (.error .digestMismatch, s)
      else (.ok (), s)

/-- A verification call returns its outcome, the stream as it leaves it,
and the ordered list of URLs passed to the fetch capability. -/
def VerifyResult : Type := Except VErr Unit × LocalArtifactCopy × List URL

/-- `BuildManifestVerifier.VerifyHoistArtifact`: scheme check, temp dir,
fetch `<path>.manifest` then (by mutating the same URL value)
`<path>.manifest.sig`, verify the manifest's signature, then check the
local artifact's digest against the manifest. -/
def BuildManifestVerifier.VerifyHoistArtifact {K : Type} (b : BuildManifestVerifier K)
    (env : Env K) (fetcher : Fetcher) (localCopy : LocalArtifactCopy)
    (artifactLocation : URL) : VerifyResult :=
  if recognizedScheme artifactLocation.scheme then
    if env.tempDirOk then
      let manifestSrc := { artifactLocation with path := artifactLocation.path ++ ".manifest" }
      match fetcher manifestSrc with
      | none => (.error .fetchFailure, localCopy, [manifestSrc])
      | some manifestBytes =>
        let signatureSrc := { manifestSrc with path := manifestSrc.path ++ ".sig" }
        match fetcher signatureSrc with
        | none => (.error .fetchFailure, localCopy, [manifestSrc, signatureSrc])
        | some signatureBytes =>
          match verifySigned env b.keyring manifestBytes signatureBytes with
          | .error e => (.error e, localCopy, [manifestSrc, signatureSrc])
          | .ok _ =>
            let r := b.checkMatchingDigest env localCopy manifestBytes
            (r.1, r.2, [manifestSrc, signatureSrc])
    else (.error .tempDirError, localCopy, [])
  else (.error .unsupportedScheme, localCopy, [])

/-- `BuildVerifier.VerifyHoistArtifact`: scheme check, temp dir, fetch
`<path>.sig`, read the artifact fully, verify its detached signature. -/
def BuildVerifier.VerifyHoistArtifact {K : Type} (b : BuildVerifier K)
    (env : Env K) (fetcher : Fetcher) (localCopy : LocalArtifactCopy)
    (artifactLocation : URL) : VerifyResult :=
  if recognizedScheme artifactLocation.scheme then
    if env.tempDirOk then
      let sigURI := { artifactLocation with path := artifactLocation.path ++ ".sig" }
      match fetcher sigURI with
      | none => (.error .fetchFailure, localCopy, [sigURI])
      | some sigData =>
        match localCopy.readAll with
        | none => (.error .readError, localCopy, [sigURI])
        | some (signedBytes, s) =>
          (verifySigned env b.keyring signedBytes sigData, s, [sigURI])
    else (.error .tempDirError, localCopy, [])
  else (.error .unsupportedScheme, localCopy, [])

/-- `CompositeVerifier.VerifyHoistArtifact`: attempt manifest verification;
if it fails, rewind the local copy (failure to rewind aborts), then fall
back to the build verifier. -/
def CompositeVerifier.VerifyHoistArtifact {K : Type} (c : CompositeVerifier K)
    (env : Env K) (fetcher : Fetcher) (localCopy : LocalArtifactCopy)
    (artifactLocation : URL) : VerifyResult :=
  let m := c.manVerifier.VerifyHoistArtifact env fetcher localCopy artifactLocation
  match m.1 with
  | .ok _ => m
  | .error _ =>
    match m.2.1.seekStart with
    | none => (.error .seekError, m.2.1, m.2.2)
    | some s2 =>
      let b := c.buildVerifier.VerifyHoistArtifact env fetcher s2 artifactLocation
      (b.1, b.2.1, m.2.2 ++ b.2.2)

/-- `nopVerifier.VerifyHoistArtifact`: always succeeds, touches nothing. -/
def nopVerifier.VerifyHoistArtifact (localCopy : LocalArtifactCopy)
    (_artifactLocation : URL) : VerifyResult :=
  (.ok (), localCopy, [])

/-! ### Concrete fixtures, used to instantiate theorems on closed inputs -/

/-- The lowercase hex rendering of 32 zero bytes. -/
def zeroDigest : String := hexEncode (List.replicate 32 0)

/-- An environment over the trivial keyring in which every collaborator
succeeds and the manifest declares the digest of the empty artifact. -/
def testEnv : Env Unit where
  sha256 := fun _ => List.replicate 32 0
  sha256_len := fun _ => List.length_replicate 32 0
  checkSig := fun _ _ _ => true
  armorDecode := fun _ => none
  parseManifest := fun _ => some zeroDigest
  tempDirOk := true
  loadKeyring := fun _ => some ()

/-- Like `testEnv` but every signature check fails. -/
def failSigEnv : Env Unit := { testEnv with checkSig := fun _ _ _ => false }

/-- Like `testEnv` but bytes led by 255 decode as an armored envelope whose
body is the remaining bytes. -/
def armorEnv : Env Unit :=
  { testEnv with
    armorDecode := fun bs =>
      match bs with
      | 255 :: rest => some (some rest)
      | _ => none }

/-- Like `testEnv` but the keyring cannot be loaded. -/
def noKeyEnv : Env Unit := { testEnv with loadKeyring := fun _ => none }

/-- Like `testEnv` but the manifest parses with an empty digest field. -/
def emptyDigestEnv : Env Unit := { testEnv with parseManifest := fun _ => some "" }

/-- A fetcher for which every URL yields empty bytes. -/
def testFetcher : Fetcher := fun _ => some []

/-- An empty, readable, seekable local artifact at offset 0. -/
def testStream : LocalArtifactCopy :=
  { content := [], pos := 0, readOk := true, seekOk := true }

/-- A non-seekable local artifact. -/
def noSeekStream : LocalArtifactCopy := { testStream with seekOk := false }

/-- A recognized-scheme artifact location carrying query and fragment. -/
def testURL : URL :=
  { scheme := "https", host := "h", path := "/a", rawQuery := "q", fragment := "f" }

/-- An artifact location with an unrecognized scheme. -/
def badSchemeURL : URL := { testURL with scheme := "ftp" }

def testBMV : BuildManifestVerifier Unit := { keyring := () }

def testBV : BuildVerifier Unit := { keyring := () }

def testComposite : CompositeVerifier Unit :=
  { manVerifier := testBMV, buildVerifier := testBV }

/-! ### Helper lemmas -/

theorem hexEncode_length (bs : List Nat) : (hexEncode bs).length = 2 * bs.length := by
  induction bs with
  | nil => rfl
  | cons b bs ih =>
    simp only [hexEncode, String.length, List.flatMap_cons, hexEncodeByte] at *
    simp [ih]
    omega

theorem hexDigit_mem_table : ∀ n < 16, hexDigit n ∈ "0123456789abcdef".data := by
  decide

theorem hexEncode_mem_table (bs : List Nat) :
    ∀ c ∈ (hexEncode bs).data, c ∈ "0123456789abcdef".data := by
  intro c hc
  simp only [hexEncode, List.mem_flatMap] at hc
  obtain ⟨b, _, hb⟩ := hc
  simp only [hexEncodeByte, List.mem_cons, List.mem_singleton] at hb
  rcases hb with h | h | h
  · exact h ▸ hexDigit_mem_table _ (by omega)
  · exact h ▸ hexDigit_mem_table _ (Nat.mod_lt _ (by omega))
  · cases h

theorem string_append_ne (s : String) {t r : String} (h : t.length ≠ r.length) :
    s ++ t ≠ s ++ r := by
  intro he
  apply h
  have hl := congrArg String.length he
  simp only [String.length_append] at hl
  omega

theorem verifySigned_ne_keyringLoadError {K : Type} (env : Env K) (k : K)
    (signedBytes signatureBytes : List Nat) :
    verifySigned env k signedBytes signatureBytes ≠ .error .keyringLoadError := by
  unfold verifySigned
  split
  · simp
  · split <;> simp
  · split <;> simp

theorem checkMatchingDigest_ne_keyringLoadError {K : Type}
    (b : BuildManifestVerifier K) (env : Env K) (s : LocalArtifactCopy)
    (mb : List Nat) :
    (b.checkMatchingDigest env s mb).1 ≠ .error .keyringLoadError := by
  simp only [BuildManifestVerifier.checkMatchingDigest]
  split
  · simp
  · split
    · simp
    · split <;> simp

theorem bmv_ne_keyringLoadError {K : Type} (b : BuildManifestVerifier K)
    (env : Env K) (fetcher : Fetcher) (s : LocalArtifactCopy) (loc : URL) :
    (b.VerifyHoistArtifact env fetcher s loc).1 ≠ .error .keyringLoadError := by
  simp only [BuildManifestVerifier.VerifyHoistArtifact]
  split
  · split
    · split
      · simp
      · split
        · simp
        · split
          · rename_i e heq
            simp only []
            intro h
            exact verifySigned_ne_keyringLoadError env b.keyring _ _
              (by rw [heq]; simpa using h)
          · exact checkMatchingDigest_ne_keyringLoadError b env s _
    · simp
  · simp

theorem bv_ne_keyringLoadError {K : Type} (b : BuildVerifier K)
    (env : Env K) (fetcher : Fetcher) (s : LocalArtifactCopy) (loc : URL) :
    (b.VerifyHoistArtifact env fetcher s loc).1 ≠ .error .keyringLoadError := by
  simp only [BuildVerifier.VerifyHoistArtifact]
  split
  · split
    · split
      · simp
      · split
        · simp
        · exact verifySigned_ne_keyringLoadError env b.keyring _ _
    · simp
  · simp

theorem composite_ne_keyringLoadError {K : Type} (c : CompositeVerifier K)
    (env : Env K) (fetcher : Fetcher) (s : LocalArtifactCopy) (loc : URL) :
    (c.VerifyHoistArtifact env fetcher s loc).1 ≠ .error .keyringLoadError := by
  simp only [CompositeVerifier.VerifyHoistArtifact]
  split
  · rename_i a heq
    simp [heq]
  · split
    · simp
    · exact bv_ne_keyringLoadError c.buildVerifier env fetcher _ loc

theorem bmv_trace_mem {K : Type} (b : BuildManifestVerifier K) (env : Env K)
    (fetcher : Fetcher) (s : LocalArtifactCopy) (loc : URL) :
    ∀ u ∈ (b.VerifyHoistArtifact env fetcher s loc).2.2,
      u = { loc with path := loc.path ++ ".manifest" } ∨
      u = { loc with path := (loc.path ++ ".manifest") ++ ".sig" } := by
  intro u hu
  simp only [BuildManifestVerifier.VerifyHoistArtifact] at hu
  split at hu
  · split at hu
    · split at hu
      · simp at hu
        exact Or.inl hu
      · split at hu
        · simp at hu
          exact hu
        · split at hu
          · simp at hu
            exact hu
          · simp at hu
            exact hu
    · simp at hu
  · simp at hu

theorem bv_trace_mem {K : Type} (b : BuildVerifier K) (env : Env K)
    (fetcher : Fetcher) (s : LocalArtifactCopy) (loc : URL) :
    ∀ u ∈ (b.VerifyHoistArtifact env fetcher s loc).2.2,
      u = { loc with path := loc.path ++ ".sig" } := by
  intro u hu
  simp only [BuildVerifier.VerifyHoistArtifact] at hu
  split at hu
  · split at hu
    · split at hu
      · simp at hu
        exact hu
      · split at hu
        · simp at hu
          exact hu
        · simp at hu
          exact hu
    · simp at hu
  · simp at hu

theorem checkMatchingDigest_ok_stream {K : Type} (b : BuildManifestVerifier K)
    (env : Env K) (s : LocalArtifactCopy) (mb : List Nat) :
    (b.checkMatchingDigest env s mb).1 = .ok () →
      (b.checkMatchingDigest env s mb).2 = { s with pos := s.content.length } := by
  simp only [BuildManifestVerifier.checkMatchingDigest]
  split
  · simp
  · rename_i p heq
    simp only [LocalArtifactCopy.readAll] at heq
    split at heq
    · simp only [Option.some.injEq, Prod.mk.injEq] at heq
      split
      · simp
      · split
        · simp
        · intro
          exact heq.2.symm
    · cases heq

theorem path_suffix_ne_cases (p : String) :
    p ++ ".sig" ≠ p ++ ".manifest" ∧ p ++ ".sig" ≠ (p ++ ".manifest") ++ ".sig" := by
  constructor
  · apply string_append_ne
    decide
  · intro he
    have hl := congrArg String.length he
    simp only [String.length_append] at hl
    have h4 : (".sig" : String).length = 4 := rfl
    have h9 : (".manifest" : String).length = 9 := rfl
    rw [h4, h9] at hl
    omega

theorem bmv_unsupported {K : Type} (b : BuildManifestVerifier K) (env : Env K)
    (fetcher : Fetcher) (s : LocalArtifactCopy) (loc : URL)
    (hr : recognizedScheme loc.scheme = false) :
    b.VerifyHoistArtifact env fetcher s loc = (.error .unsupportedScheme, s, []) := by
  simp [BuildManifestVerifier.VerifyHoistArtifact, hr]

theorem bv_unsupported {K : Type} (b : BuildVerifier K) (env : Env K)
    (fetcher : Fetcher) (s : LocalArtifactCopy) (loc : URL)
    (hr : recognizedScheme loc.scheme = false) :
    b.VerifyHoistArtifact env fetcher s loc = (.error .unsupportedScheme, s, []) := by
  simp [BuildVerifier.VerifyHoistArtifact, hr]

theorem bmv_ok_stream {K : Type} (b : BuildManifestVerifier K) (env : Env K)
    (fetcher : Fetcher) (s : LocalArtifactCopy) (loc : URL) :
    (b.VerifyHoistArtifact env fetcher s loc).1 = .ok () →
      (b.VerifyHoistArtifact env fetcher s loc).2.1 =
        { s with pos := s.content.length } := by
  simp only [BuildManifestVerifier.VerifyHoistArtifact]
  split
  · split
    · split
      · simp
      · split
        · simp
        · split
          · simp
          · rename_i mbytes a heq
            exact fun h => checkMatchingDigest_ok_stream b env s _ h
    · simp
  · simp

/-! ### Claim theorems -/

/-- C1: if the composite's first attempt (`BuildManifestVerifier`) fails for
any reason, the composite rewinds the local stream to offset 0 before
attempting `BuildVerifier`; if the rewind itself fails, the composite
returns the fatal seek `IOError` without invoking `BuildVerifier` (no
further fetches), and otherwise `BuildVerifier`'s outcome is returned as
the composite's final outcome, the manifest failure being discarded. -/
theorem C1_composite_fallback {K : Type} (c : CompositeVerifier K) (env : Env K)
    (fetcher : Fetcher) (s : LocalArtifactCopy) (loc : URL) (e : VErr)
    (h : (c.manVerifier.VerifyHoistArtifact env fetcher s loc).1 = .error e) :
    ((c.manVerifier.VerifyHoistArtifact env fetcher s loc).2.1.seekOk = false →
      c.VerifyHoistArtifact env fetcher s loc =
        (.error .seekError,
         (c.manVerifier.VerifyHoistArtifact env fetcher s loc).2.1,
         (c.manVerifier.VerifyHoistArtifact env fetcher s loc).2.2)) ∧
    ((c.manVerifier.VerifyHoistArtifact env fetcher s loc).2.1.seekOk = true →
      c.VerifyHoistArtifact env fetcher s loc =
        ((c.buildVerifier.VerifyHoistArtifact env fetcher
            { (c.manVerifier.VerifyHoistArtifact env fetcher s loc).2.1 with pos := 0 } loc).1,
         (c.buildVerifier.VerifyHoistArtifact env fetcher
            { (c.manVerifier.VerifyHoistArtifact env fetcher s loc).2.1 with pos := 0 } loc).2.1,
         (c.manVerifier.VerifyHoistArtifact env fetcher s loc).2.2 ++
         (c.buildVerifier.VerifyHoistArtifact env fetcher
            { (c.manVerifier.VerifyHoistArtifact env fetcher s loc).2.1 with pos := 0 } loc).2.2)) := by
  constructor
  · intro hseek
    simp only [CompositeVerifier.VerifyHoistArtifact, h, LocalArtifactCopy.seekStart, hseek]
    simp
  · intro hseek
    simp only [CompositeVerifier.VerifyHoistArtifact, h, LocalArtifactCopy.seekStart, hseek]
    simp

/-- Witness for C1 at a concrete input on which the manifest strategy fails
with `signatureInvalid` and the stream is seekable. -/
theorem C1_composite_fallback_witness :
    testComposite.VerifyHoistArtifact failSigEnv testFetcher testStream testURL =
      ((testComposite.buildVerifier.VerifyHoistArtifact failSigEnv testFetcher
          { (testComposite.manVerifier.VerifyHoistArtifact failSigEnv testFetcher
              testStream testURL).2.1 with pos := 0 } testURL).1,
       (testComposite.buildVerifier.VerifyHoistArtifact failSigEnv testFetcher
          { (testComposite.manVerifier.VerifyHoistArtifact failSigEnv testFetcher
              testStream testURL).2.1 with pos := 0 } testURL).2.1,
       (testComposite.manVerifier.VerifyHoistArtifact failSigEnv testFetcher
          testStream testURL).2.2 ++
       (testComposite.buildVerifier.VerifyHoistArtifact failSigEnv testFetcher
          { (testComposite.manVerifier.VerifyHoistArtifact failSigEnv testFetcher
              testStream testURL).2.1 with pos := 0 } testURL).2.2) :=
  (C1_composite_fallback testComposite failSigEnv testFetcher testStream testURL
    .signatureInvalid rfl).2 rfl

/-- C2: when the manifest strategy succeeds, the composite returns its
success unchanged, `BuildVerifier` is never invoked, and in particular the
fetch capability is never asked for the direct signature location
`<base>.sig`. -/
theorem C2_manifest_success_short_circuits {K : Type} (c : CompositeVerifier K)
    (env : Env K) (fetcher : Fetcher) (s : LocalArtifactCopy) (loc : URL)
    (h : (c.manVerifier.VerifyHoistArtifact env fetcher s loc).1 = .ok ()) :
    c.VerifyHoistArtifact env fetcher s loc =
      c.manVerifier.VerifyHoistArtifact env fetcher s loc ∧
    { loc with path := loc.path ++ ".sig" } ∉
      (c.VerifyHoistArtifact env fetcher s loc).2.2 := by
  have h1 : c.VerifyHoistArtifact env fetcher s loc =
      c.manVerifier.VerifyHoistArtifact env fetcher s loc := by
    simp only [CompositeVerifier.VerifyHoistArtifact, h]
  refine ⟨h1, ?_⟩
  rw [h1]
  intro hmem
  rcases bmv_trace_mem c.manVerifier env fetcher s loc _ hmem with he | he
  · exact (path_suffix_ne_cases loc.path).1 (congrArg URL.path he)
  · exact (path_suffix_ne_cases loc.path).2 (congrArg URL.path he)

/-- Witness for C2 at a concrete input on which the manifest strategy
succeeds. -/
theorem C2_manifest_success_short_circuits_witness :
    testComposite.VerifyHoistArtifact testEnv testFetcher testStream testURL =
      testComposite.manVerifier.VerifyHoistArtifact testEnv testFetcher testStream testURL ∧
    { testURL with path := testURL.path ++ ".sig" } ∉
      (testComposite.VerifyHoistArtifact testEnv testFetcher testStream testURL).2.2 :=
  C2_manifest_success_short_circuits testComposite testEnv testFetcher testStream
    testURL rfl

/-- C3: for an artifact location whose scheme is not one of file, gs, http,
https, both inner verifiers and the composite fail with
`unsupportedScheme`, and no URL is ever passed to the fetch capability. -/
theorem C3_unsupported_scheme_no_fetch {K : Type} (env : Env K) (fetcher : Fetcher)
    (bm : BuildManifestVerifier K) (bv : BuildVerifier K) (c : CompositeVerifier K)
    (s : LocalArtifactCopy) (loc : URL)
    (hscheme : loc.scheme ∉ (["file", "gs", "http", "https"] : List String))
    (hseek : s.seekOk = true) :
    bm.VerifyHoistArtifact env fetcher s loc = (.error .unsupportedScheme, s, []) ∧
    bv.VerifyHoistArtifact env fetcher s loc = (.error .unsupportedScheme, s, []) ∧
    (c.VerifyHoistArtifact env fetcher s loc).1 = .error .unsupportedScheme ∧
    (c.VerifyHoistArtifact env fetcher s loc).2.2 = ([] : List URL) := by
  have hr : recognizedScheme loc.scheme = false := by
    simp only [List.mem_cons, List.not_mem_nil, or_false, not_or] at hscheme
    simp [recognizedScheme, hscheme.1, hscheme.2.1, hscheme.2.2.1, hscheme.2.2.2]
  have hman := bmv_unsupported c.manVerifier env fetcher s loc hr
  have hbuild := bv_unsupported c.buildVerifier env fetcher
    { s with pos := 0 } loc hr
  rw [hseek] at hbuild
  refine ⟨bmv_unsupported bm env fetcher s loc hr,
          bv_unsupported bv env fetcher s loc hr, ?_, ?_⟩ <;>
    simp [CompositeVerifier.VerifyHoistArtifact, hman, hbuild,
      LocalArtifactCopy.seekStart, hseek]

/-- Witness for C3 at a concrete `ftp`-scheme location with a seekable
stream. -/
theorem C3_unsupported_scheme_no_fetch_witness :
    testBMV.VerifyHoistArtifact testEnv testFetcher testStream badSchemeURL =
      (.error .unsupportedScheme, testStream, []) ∧
    testBV.VerifyHoistArtifact testEnv testFetcher testStream badSchemeURL =
      (.error .unsupportedScheme, testStream, []) ∧
    (testComposite.VerifyHoistArtifact testEnv testFetcher testStream badSchemeURL).1 =
      .error .unsupportedScheme ∧
    (testComposite.VerifyHoistArtifact testEnv testFetcher testStream badSchemeURL).2.2 =
      ([] : List URL) :=
  C3_unsupported_scheme_no_fetch testEnv testFetcher testBMV testBV testComposite
    testStream badSchemeURL (by decide) rfl

/-- C4: `BuildManifestVerifier.VerifyHoistArtifact` checks the manifest's
signature before comparing digests: when the signature does not verify, it
fails with `signatureInvalid` and returns the local stream untouched (the
digest comparison, which would read it, is never performed), regardless of
whether the manifest's declared digest matches the local artifact. -/
theorem C4_signature_before_digest {K : Type} (b : BuildManifestVerifier K)
    (env : Env K) (fetcher : Fetcher) (s : LocalArtifactCopy) (loc : URL)
    (mb sb : List Nat)
    (hscheme : recognizedScheme loc.scheme = true)
    (htmp : env.tempDirOk = true)
    (hm : fetcher { loc with path := loc.path ++ ".manifest" } = some mb)
    (hs : fetcher { loc with path := (loc.path ++ ".manifest") ++ ".sig" } = some sb)
    (hsig : verifySigned env b.keyring mb sb = .error .signatureInvalid) :
    b.VerifyHoistArtifact env fetcher s loc =
      (.error .signatureInvalid, s,
       [{ loc with path := loc.path ++ ".manifest" },
        { loc with path := (loc.path ++ ".manifest") ++ ".sig" }]) := by
  simp [BuildManifestVerifier.VerifyHoistArtifact, hscheme, htmp, hm, hs, hsig]

/-- Witness for C4 at a concrete input whose signature check fails. -/
theorem C4_signature_before_digest_witness :
    testBMV.VerifyHoistArtifact failSigEnv testFetcher testStream testURL =
      (.error .signatureInvalid, testStream,
       [{ testURL with path := testURL.path ++ ".manifest" },
        { testURL with path := (testURL.path ++ ".manifest") ++ ".sig" }]) :=
  C4_signature_before_digest testBMV failSigEnv testFetcher testStream testURL
    [] [] rfl rfl rfl rfl rfl

/-- C5: the digest check hashes the entire local artifact stream with
SHA-256, renders it as 64 lowercase hexadecimal characters, and compares
it to the manifest's declared `artifact_sha` by exact string equality: any
difference yields `digestMismatch`, equality yields success, and a
manifest that fails to parse yields the distinct `parseError`. -/
theorem C5_digest_comparison {K : Type} (b : BuildManifestVerifier K) (env : Env K)
    (s : LocalArtifactCopy) (mb : List Nat)
    (hread : s.readOk = true) (hpos : s.pos = 0) :
    (hexEncode (env.sha256 s.content)).length = 64 ∧
    (∀ c ∈ (hexEncode (env.sha256 s.content)).data, c ∈ "0123456789abcdef".data) ∧
    (env.parseManifest mb = none →
      (b.checkMatchingDigest env s mb).1 = .error .parseError) ∧
    (∀ d, env.parseManifest mb = some d →
      (hexEncode (env.sha256 s.content) ≠ d →
        (b.checkMatchingDigest env s mb).1 = .error .digestMismatch) ∧
      (hexEncode (env.sha256 s.content) = d →
        (b.checkMatchingDigest env s mb).1 = .ok ())) := by
  refine ⟨?_, hexEncode_mem_table _, ?_, ?_⟩
  · rw [hexEncode_length, env.sha256_len]
  · intro hp
    simp [BuildManifestVerifier.checkMatchingDigest, LocalArtifactCopy.readAll,
      hread, hpos, hp]
  · intro d hp
    constructor <;> intro hd <;>
      simp [BuildManifestVerifier.checkMatchingDigest, LocalArtifactCopy.readAll,
        hread, hpos, hp, hd]

/-- Witness for C5 at the empty artifact and empty manifest bytes under
`testEnv`. -/
theorem C5_digest_comparison_witness :
    (hexEncode (testEnv.sha256 testStream.content)).length = 64 ∧
    (∀ c ∈ (hexEncode (testEnv.sha256 testStream.content)).data,
      c ∈ "0123456789abcdef".data) ∧
    (testEnv.parseManifest [] = none →
      (testBMV.checkMatchingDigest testEnv testStream []).1 = .error .parseError) ∧
    (∀ d, testEnv.parseManifest [] = some d →
      (hexEncode (testEnv.sha256 testStream.content) ≠ d →
        (testBMV.checkMatchingDigest testEnv testStream []).1 = .error .digestMismatch) ∧
      (hexEncode (testEnv.sha256 testStream.content) = d →
        (testBMV.checkMatchingDigest testEnv testStream []).1 = .ok ())) :=
  C5_digest_comparison testBMV testEnv testStream [] rfl rfl

/-- C6: for a recognized-scheme artifact location, the URLs handed to the
fetch capability are derived purely by appending string suffixes to the
path component — `.manifest` and `.manifest.sig` for the manifest verifier
and `.sig` for the build verifier — with scheme, host, query, and fragment
preserved unchanged. -/
theorem C6_companion_urls {K : Type} (bm : BuildManifestVerifier K)
    (bv : BuildVerifier K) (env : Env K) (fetcher : Fetcher)
    (s s2 : LocalArtifactCopy) (loc : URL)
    (_hscheme : recognizedScheme loc.scheme = true) :
    (∀ u ∈ (bm.VerifyHoistArtifact env fetcher s loc).2.2,
      (u.path = loc.path ++ ".manifest" ∨ u.path = loc.path ++ ".manifest.sig") ∧
      u.scheme = loc.scheme ∧ u.host = loc.host ∧
      u.rawQuery = loc.rawQuery ∧ u.fragment = loc.fragment) ∧
    (∀ u ∈ (bv.VerifyHoistArtifact env fetcher s2 loc).2.2,
      u.path = loc.path ++ ".sig" ∧
      u.scheme = loc.scheme ∧ u.host = loc.host ∧
      u.rawQuery = loc.rawQuery ∧ u.fragment = loc.fragment) := by
  constructor
  · intro u hu
    rcases bmv_trace_mem bm env fetcher s loc u hu with he | he <;> subst he
    · exact ⟨Or.inl rfl, rfl, rfl, rfl, rfl⟩
    · refine ⟨Or.inr ?_, rfl, rfl, rfl, rfl⟩
      show (loc.path ++ ".manifest") ++ ".sig" = loc.path ++ ".manifest.sig"
      rw [String.append_assoc]
      have hlit : (".manifest" : String) ++ ".sig" = ".manifest.sig" := by decide
      rw [hlit]
  · intro u hu
    have he := bv_trace_mem bv env fetcher s2 loc u hu
    subst he
    exact ⟨rfl, rfl, rfl, rfl, rfl⟩

/-- Witness for C6 at a concrete https location carrying a query and a
fragment. -/
theorem C6_companion_urls_witness :
    (∀ u ∈ (testBMV.VerifyHoistArtifact testEnv testFetcher testStream testURL).2.2,
      (u.path = testURL.path ++ ".manifest" ∨
       u.path = testURL.path ++ ".manifest.sig") ∧
      u.scheme = testURL.scheme ∧ u.host = testURL.host ∧
      u.rawQuery = testURL.rawQuery ∧ u.fragment = testURL.fragment) ∧
    (∀ u ∈ (testBV.VerifyHoistArtifact testEnv testFetcher testStream testURL).2.2,
      u.path = testURL.path ++ ".sig" ∧
      u.scheme = testURL.scheme ∧ u.host = testURL.host ∧
      u.rawQuery = testURL.rawQuery ∧ u.fragment = testURL.fragment) :=
  C6_companion_urls testBMV testBV testEnv testFetcher testStream testStream
    testURL rfl

/-- C7: `verifySigned` auto-detects the signature encoding: for the same
payload and keyring it returns the same outcome whether the signature is
supplied raw (not recognized as armor) or wrapped in an ASCII-armored
envelope whose body decodes to the same raw bytes. -/
theorem C7_armor_agnostic {K : Type} (env : Env K) (k : K)
    (payload sig wrapped : List Nat)
    (hwrap : env.armorDecode wrapped = some (some sig))
    (hraw : env.armorDecode sig = none) :
    verifySigned env k payload wrapped = verifySigned env k payload sig := by
  simp [verifySigned, hwrap, hraw]

/-- Witness for C7: under `armorEnv`, bytes led by 255 are an armored
envelope whose body is the rest; `[1, 2]` itself is not armored. -/
theorem C7_armor_agnostic_witness :
    armorEnv.armorDecode (255 :: [1, 2]) = some (some [1, 2]) ∧
    armorEnv.armorDecode [1, 2] = none ∧
    verifySigned armorEnv () [9] (255 :: [1, 2]) = verifySigned armorEnv () [9] [1, 2] :=
  ⟨rfl, rfl, C7_armor_agnostic armorEnv () [9] [1, 2] (255 :: [1, 2]) rfl rfl⟩

/-- C8: when the keyring cannot be loaded, every constructor fails with
`keyringLoadError` and no verifier is created; and no
`VerifyHoistArtifact` call (composite or inner) ever produces
`keyringLoadError`. -/
theorem C8_keyring_load_construction_only {K : Type} (env : Env K) (path : String) :
    (env.loadKeyring path = none →
      NewBuildManifestVerifier env path = .error .keyringLoadError ∧
      NewBuildVerifier env path = .error .keyringLoadError ∧
      NewCompositeVerifier env path = .error .keyringLoadError) ∧
    (∀ (fetcher : Fetcher) (c : CompositeVerifier K) (s : LocalArtifactCopy) (loc : URL),
      (c.VerifyHoistArtifact env fetcher s loc).1 ≠ .error .keyringLoadError) ∧
    (∀ (fetcher : Fetcher) (b : BuildManifestVerifier K) (s : LocalArtifactCopy) (loc : URL),
      (b.VerifyHoistArtifact env fetcher s loc).1 ≠ .error .keyringLoadError) ∧
    (∀ (fetcher : Fetcher) (b : BuildVerifier K) (s : LocalArtifactCopy) (loc : URL),
      (b.VerifyHoistArtifact env fetcher s loc).1 ≠ .error .keyringLoadError) := by
  refine ⟨?_,
    fun fetcher c s loc => composite_ne_keyringLoadError c env fetcher s loc,
    fun fetcher b s loc => bmv_ne_keyringLoadError b env fetcher s loc,
    fun fetcher b s loc => bv_ne_keyringLoadError b env fetcher s loc⟩
  intro h
  refine ⟨?_, ?_, ?_⟩ <;>
    simp [NewBuildManifestVerifier, NewBuildVerifier, NewCompositeVerifier, h]

/-- Witness for C8 under an environment whose keyring cannot be loaded. -/
theorem C8_keyring_load_construction_only_witness :
    (NewBuildManifestVerifier noKeyEnv "p" = .error .keyringLoadError ∧
     NewBuildVerifier noKeyEnv "p" = .error .keyringLoadError ∧
     NewCompositeVerifier noKeyEnv "p" = .error .keyringLoadError) ∧
    (testComposite.VerifyHoistArtifact noKeyEnv testFetcher testStream testURL).1 ≠
      .error .keyringLoadError :=
  ⟨(C8_keyring_load_construction_only noKeyEnv "p").1 rfl,
   (C8_keyring_load_construction_only noKeyEnv "p").2.1 testFetcher testComposite
     testStream testURL⟩

/-- C9: a manifest that parses with an absent or empty `artifact_sha`
field (Go zero value `""`) can never satisfy the digest check: the
computed digest is a 64-character string, so the comparison always fails
with `digestMismatch` (and the check never succeeds even when the local
read fails). -/
theorem C9_empty_digest_never_matches {K : Type} (b : BuildManifestVerifier K)
    (env : Env K) (s : LocalArtifactCopy) (mb : List Nat)
    (hp : env.parseManifest mb = some "") :
    (b.checkMatchingDigest env s mb).1 ≠ .ok () ∧
    (s.readOk = true → (b.checkMatchingDigest env s mb).1 = .error .digestMismatch) := by
  have hne : ∀ x, hexEncode (env.sha256 x) ≠ "" := by
    intro x hx
    have hl := congrArg String.length hx
    rw [hexEncode_length, env.sha256_len] at hl
    have h0 : ("" : String).length = 0 := rfl
    rw [h0] at hl
    omega
  constructor
  · by_cases hro : s.readOk <;>
      simp [BuildManifestVerifier.checkMatchingDigest, LocalArtifactCopy.readAll,
        hro, hp, hne _]
  · intro hro
    simp [BuildManifestVerifier.checkMatchingDigest, LocalArtifactCopy.readAll,
      hro, hp, hne _]

/-- Witness for C9 under an environment whose manifests parse with an
empty digest field. -/
theorem C9_empty_digest_never_matches_witness :
    (testBMV.checkMatchingDigest emptyDigestEnv testStream []).1 ≠ .ok () ∧
    (testStream.readOk = true →
      (testBMV.checkMatchingDigest emptyDigestEnv testStream []).1 =
        .error .digestMismatch) :=
  C9_empty_digest_never_matches testBMV emptyDigestEnv testStream [] rfl

/-- C10: when the composite succeeds via the manifest strategy, the local
stream is not rewound: it is returned exactly as the digest computation
left it, at the end of the stream, and the composite's whole result is the
manifest strategy's result. -/
theorem C10_success_stream_not_reset {K : Type} (c : CompositeVerifier K)
    (env : Env K) (fetcher : Fetcher) (s : LocalArtifactCopy) (loc : URL)
    (h : (c.manVerifier.VerifyHoistArtifact env fetcher s loc).1 = .ok ()) :
    c.VerifyHoistArtifact env fetcher s loc =
      (.ok (), { s with pos := s.content.length },
       (c.manVerifier.VerifyHoistArtifact env fetcher s loc).2.2) := by
  have h2 := bmv_ok_stream c.manVerifier env fetcher s loc h
  rcases hm : c.manVerifier.VerifyHoistArtifact env fetcher s loc with ⟨r, st, tr⟩
  rw [hm] at h h2
  simp only at h h2
  subst h
  subst h2
  simp [CompositeVerifier.VerifyHoistArtifact, hm]

/-- Witness for C10 at a concrete input on which the manifest strategy
succeeds. -/
theorem C10_success_stream_not_reset_witness :
    testComposite.VerifyHoistArtifact testEnv testFetcher testStream testURL =
      (.ok (), { testStream with pos := testStream.content.length },
       (testComposite.manVerifier.VerifyHoistArtifact testEnv testFetcher
          testStream testURL).2.2) :=
  C10_success_stream_not_reset testComposite testEnv testFetcher testStream
    testURL rfl
